import Mathlib

/-!
# Verification of the MySQL Connector/Python C extension value-conversion core

Shallow embedding of the conversion and fetch routines of
`src/mysql_capi_conversion.c`, `src/mysql_capi.c` and `src/exceptions.c`.

Conventions used throughout:
* C strings are modelled as `List Char` (one `Char` per byte; the terminating
  NUL is not stored — reading one byte past the tracked length, which the C
  code does in a few loops, yields the NUL terminator and is modelled by
  `List.getD`/`headD` with default `Char.ofNat 0`).
* C `int` arithmetic is modelled by unbounded `Int` (the parsed values the
  claims are about stay far below 2^31, so overflow never changes a result
  considered here).  C `/` and `%` on `int` truncate towards zero and are
  modelled by `Int.tdiv` / `Int.tmod`.
* CPython runtime services that are external to this repository
  (`PyUnicode_Decode`, `PyLong_FromString`, `PyOS_string_to_double`, the
  `decimal` module) are parameters of the embedding; the fetch-path theorems
  hold for every choice of those parameters.
-/

namespace MyConnPy

/-- Numeric value of an ASCII digit byte, as the C code computes `*p - '0'`.
For a non-digit byte this is whatever `byte - 48` is, exactly as in C. -/
def digitVal (c : Char) : Int := (c.toNat : Int) - 48

/-- The inner scanning loop
`for (value= 0; data != end && isdigit(*data); data++) value = value*10 + (*data-'0');`
used by `mytopy_datetime` and `mytopy_time`.  Returns the accumulated value
and the unconsumed rest. -/
def digits_run : List Char → Int → Int × List Char
  | c :: rest, v =>
    if c.isDigit then digits_run rest (v * 10 + digitVal c) else (v, c :: rest)
  | [], v => (v, [])

/-- Macro `#define MINYEAR 1`. -/
def MINYEAR : Int := 1

/-- Macro `#define MAXYEAR 9999`. -/
def MAXYEAR : Int := 9999

/-- Function `leap_year` from `mysql_capi_conversion.c`:
`(year % 4 == 0) && (year % 100 != 0 || year % 400 == 0)`
(C `%` on `int` is truncating remainder, hence `Int.tmod`). -/
def leap_year (year : Int) : Bool :=
  Int.tmod year 4 == 0 && (Int.tmod year 100 != 0 || Int.tmod year 400 == 0)

/-- Function `nr_days_month` from `mysql_capi_conversion.c`:
`int days[]= {0,31,28,31,30,31,30,31,31,30,31,30,31};` with the February /
leap-year special case.  The C array access `days[month]` is only ever
reached with `month` in `[1,12]` (see `is_valid_date`); out-of-range access
is modelled by the `getD` default. -/
def nr_days_month (year month : Int) : Int :=
  if month == 2 && leap_year year then 29
  else [0, 31, 28, 31, 30, 31, 30, 31, 31, 30, 31, 30, 31].getD month.toNat 0

/-- Function `is_valid_date` from `mysql_capi_conversion.c`.  The three-way split
mirrors the short-circuit evaluation of the C `||` chain: `nr_days_month`
is only consulted once year and month are known to be in range. -/
def is_valid_date (year month day : Int) : Bool :=
  if year < MINYEAR ∨ year > MAXYEAR then false
  else if month < 1 ∨ month > 12 then false
  else if day < 1 ∨ day > nr_days_month year month then false
  else true

/-- Function `is_valid_time` from `mysql_capi_conversion.c`. -/
def is_valid_time (hours mins secs usecs : Int) : Bool :=
  if (hours < 0 ∨ hours > 23) ∨ (mins < 0 ∨ mins > 59) ∨
     (secs < 0 ∨ secs > 59) ∨ (usecs < 0 ∨ usecs > 999999) then false
  else true

section ScanfDate

/-- The whitespace skipped by a `sscanf` `%d` conversion (C `isspace` in the
default locale). -/
def isCSpace (c : Char) : Bool :=
  c == ' ' || c == '\t' || c == '\n' || c == '\x0b' || c == '\x0c' || c == '\r'

/-- Skip leading C whitespace, as a `%d` conversion does. -/
def skip_cspace : List Char → List Char
  | c :: rest => if isCSpace c then skip_cspace rest else c :: rest
  | [] => []

/-- One `sscanf` `%d` conversion: skip whitespace, optional sign, then at
least one decimal digit; `none` is a matching failure. -/
def scan_int (l : List Char) : Option (Int × List Char) :=
  match skip_cspace l with
  | '-' :: r =>
    if (r.headD (Char.ofNat 0)).isDigit then
      let p := digits_run r 0
      some (-p.1, p.2)
    else none
  | '+' :: r =>
    if (r.headD (Char.ofNat 0)).isDigit then some (digits_run r 0) else none
  | r =>
    if (r.headD (Char.ofNat 0)).isDigit then some (digits_run r 0) else none

/-- Grammar check `sscanf(data, "%d-%d-%d", &year, &month, &day) == 3`: three `%d`
conversions separated by literal `'-'` characters (a literal directive
matches exactly one identical input character, with no whitespace skip).
`some` is returned exactly when all three conversions succeed. -/
def sscanf_d_d_d (l : List Char) : Option (Int × Int × Int) :=
  match scan_int l with
  | none => none
  | some (y, r1) =>
    match r1 with
    | '-' :: r1b =>
      match scan_int r1b with
      | none => none
      | some (m, r2) =>
        match r2 with
        | '-' :: r2b =>
          match scan_int r2b with
          | none => none
          | some (d, _) => some (y, m, d)
        | _ => none
    | _ => none

/-- Result of `mytopy_date`: a `datetime.date`, `Py_None`, or a raised
`ValueError` (the C function returning `NULL`). -/
inductive DateResult where
  | value (year month day : Int)
  | pynone
  | valueError
  deriving DecidableEq, Repr

/-- Function `mytopy_date` from `mysql_capi_conversion.c`. -/
def mytopy_date (data : List Char) : DateResult :=
  match sscanf_d_d_d data with
  | some (y, m, d) => if is_valid_date y m d then .value y m d else .pynone
  | none => .valueError

end ScanfDate

section DatetimeTime

/-- The fractional-part loop shared (in shape) by `mytopy_datetime` and
`mytopy_time`:
`while (data++ != end && isdigit(*data)) { if (field_length-- > 0) value = value*10 + (*data-'0'); }`
The state is the rest of the input starting at the current `data` position;
each iteration first checks `data != end`, then advances and inspects the
byte at the new position (one byte past the tracked length this reads the
NUL terminator, which is not a digit).  Returns the accumulated value and
the final `field_length` (decremented once per digit iteration, exactly as
the C post-decrement does). -/
def frac_loop : List Char → Int → Int → Int × Int
  | [], fl, v => (v, fl)
  | _ :: rest, fl, v =>
    match rest with
    | c :: _ =>
      if c.isDigit then
        if fl > 0 then frac_loop rest (fl - 1) (v * 10 + digitVal c)
        else frac_loop rest (fl - 1) v
      else (v, fl)
    | [] => (v, fl)

/-- The group-scanning loop of `mytopy_datetime` (year, month, day, hours,
minutes, seconds separated by `'-'`, `':'` or `' '`).  The C loop body
appends one numeric group per iteration and each iteration consumes at
least the separator byte, so running it with `fuel = length + 1` is exact;
`fuel` exists only to make the recursion structural.  Note the C bound is
`part == 8` although `parts` has room for 7 entries (the extra slot is an
out-of-bounds write in C; here the list simply grows and entry 7 is never
read). -/
def dt_groups : Nat → List Char → List Int → List Int × List Char
  | 0, rest, parts => (parts, rest)
  | fuel + 1, rest, parts =>
    let p := digits_run rest 0
    let parts2 := parts ++ [p.1]
    if parts2.length == 8 then (parts2, p.2)
    else
      match p.2 with
      | c1 :: c2 :: r2 =>
        if (c1 == '-' || c1 == ':' || c1 == ' ') && c2.isDigit then
          dt_groups fuel (c2 :: r2) parts2
        else (parts2, c1 :: c2 :: r2)
      | r => (parts2, r)

/-- The parsing phase of `mytopy_datetime`: the group loop followed by the
optional fractional part (`field_length = 6` — note `mytopy_time` uses 5
for the same loop shape), producing
`(year, month, day, hours, mins, secs, usecs)` in source order. -/
def dt_parse (data : List Char) : Int × Int × Int × Int × Int × Int × Int :=
  let g := dt_groups (data.length + 1) data []
  let parts := g.1
  let usecs : Int :=
    match g.2 with
    | '.' :: c :: r2 => (frac_loop (c :: r2) 6 (digitVal c)).1
    | _ => parts.getD 6 0
  (parts.getD 0 0, parts.getD 1 0, parts.getD 2 0,
   parts.getD 3 0, parts.getD 4 0, parts.getD 5 0, usecs)

/-- Result of `mytopy_datetime`: a `datetime.datetime` or `Py_None`. -/
inductive DatetimeResult where
  | value (year month day hours mins secs usecs : Int)
  | pynone
  deriving DecidableEq, Repr

/-- Function `mytopy_datetime` from `mysql_capi_conversion.c`: parse, then validate
date and time components, returning `Py_None` when either is invalid. -/
def mytopy_datetime (data : List Char) : DatetimeResult :=
  let p := dt_parse data
  if is_valid_date p.1 p.2.1 p.2.2.1 = false then .pynone
  else if is_valid_time p.2.2.2.1 p.2.2.2.2.1 p.2.2.2.2.2.1 p.2.2.2.2.2.2 = false then .pynone
  else .value p.1 p.2.1 p.2.2.1 p.2.2.2.1 p.2.2.2.2.1 p.2.2.2.2.2.1 p.2.2.2.2.2.2

/-- The group-scanning loop of `mytopy_time` (hours, minutes, seconds
separated by `':'`, at most 4 groups).  Same fuel convention as
`dt_groups`. -/
def time_groups : Nat → List Char → List Int → List Int × List Char
  | 0, rest, parts => (parts, rest)
  | fuel + 1, rest, parts =>
    let p := digits_run rest 0
    let parts2 := parts ++ [p.1]
    if parts2.length == 4 then (parts2, p.2)
    else
      match p.2 with
      | c1 :: c2 :: r2 =>
        if c1 == ':' && c2.isDigit then time_groups fuel (c2 :: r2) parts2
        else (parts2, c1 :: c2 :: r2)
      | r => (parts2, r)

/-- The fractional part of `mytopy_time`: `field_length = 5`, and when the
loop leaves `field_length >= 0` the value is padded with that many factors
of 10 (scaling the fraction to microseconds). -/
def time_frac (r : List Char) : Option Int :=
  match r with
  | '.' :: c :: r2 =>
    let p := frac_loop (c :: r2) 5 (digitVal c)
    some (if p.2 ≥ 0 then p.1 * 10 ^ p.2.toNat else p.1)
  | _ => none

/-- The parsing phase of `mytopy_time`: leading `'-'` detection (the C code
reads `*data`, i.e. the NUL terminator for an empty string), the group
loop, and the fractional part which overwrites `parts[3]`.  Returns
`(negative, hr, min, sec, usec)`. -/
def time_parse (data : List Char) : Bool × Int × Int × Int × Int :=
  let negative := data.headD (Char.ofNat 0) == '-'
  let rest := if negative then data.tail else data
  let g := time_groups (rest.length + 1) rest []
  let parts := g.1
  let usec := match time_frac g.2 with
    | some v => v
    | none => parts.getD 3 0
  (negative, parts.getD 0 0, parts.getD 1 0, parts.getD 2 0, usec)

/-- Normalization performed by `PyDelta_FromDSU` (CPython `datetime` C API, external to
this repository): microseconds are folded into seconds and seconds into
days with floor divmod, leaving `0 ≤ seconds < 86400` and
`0 ≤ microseconds < 1000000`.  For the positive moduli used here floor
division coincides with `Int.ediv`/`Int.emod`. -/
def pyDelta_normalize (d s u : Int) : Int × Int × Int :=
  let s2 := s + u / 1000000
  let u2 := u % 1000000
  let d2 := d + s2 / 86400
  let s3 := s2 % 86400
  (d2, s3, u2)

/-- The computation `mytopy_time` performs after parsing: negate all four
components when a leading `'-'` was seen, split hours into days (C `/` and
`%` on `int` truncate towards zero, hence `tdiv`/`tmod`), and hand
`(days, seconds, usec)` to `PyDelta_FromDSU`. -/
def mytopy_time_core (negative : Bool) (hr mn sec usec : Int) : Int × Int × Int :=
  let hr2 := if negative then hr * -1 else hr
  let mn2 := if negative then mn * -1 else mn
  let sec2 := if negative then sec * -1 else sec
  let usec2 := if negative then usec * -1 else usec
  let days := Int.tdiv hr2 24
  let hours := Int.tmod hr2 24
  let seconds := hours * 3600 + mn2 * 60 + sec2
  pyDelta_normalize days seconds usec2

/-- Function `mytopy_time` from `mysql_capi_conversion.c`, as a
`datetime.timedelta` value `(days, seconds, microseconds)`. -/
def mytopy_time (data : List Char) : Int × Int × Int :=
  let p := time_parse data
  mytopy_time_core p.1 p.2.1 p.2.2.1 p.2.2.2.1 p.2.2.2.2

end DatetimeTime

section SpecSide

/-- Spec-side leap-year predicate, following the claim's words:
`(year%4==0) && (year%100!=0 || year%400==0)` (C `%`, i.e. `tmod`). -/
def spec_leap_year (y : Int) : Prop :=
  Int.tmod y 4 = 0 ∧ (Int.tmod y 100 ≠ 0 ∨ Int.tmod y 400 = 0)

instance (y : Int) : Decidable (spec_leap_year y) := by
  unfold spec_leap_year; infer_instance

/-- Spec-side days-in-month: the standard Gregorian table with February
resolved by the leap-year test. -/
def spec_days_in_month (y m : Int) : Int :=
  if m = 2 then (if spec_leap_year y then 29 else 28)
  else [0, 31, 28, 31, 30, 31, 30, 31, 31, 30, 31, 30, 31].getD m.toNat 0

/-- Spec-side valid Gregorian date, following the claim's words: year in
`[1,9999]`, month in `[1,12]`, day in `[1, days-in-month]`. -/
def spec_valid_gregorian_date (y m d : Int) : Prop :=
  (1 ≤ y ∧ y ≤ 9999) ∧ (1 ≤ m ∧ m ≤ 12) ∧ (1 ≤ d ∧ d ≤ spec_days_in_month y m)

instance (y m d : Int) : Decidable (spec_valid_gregorian_date y m d) := by
  unfold spec_valid_gregorian_date spec_days_in_month; infer_instance

lemma leap_year_iff (y : Int) : leap_year y = true ↔ spec_leap_year y := by
  simp [leap_year, spec_leap_year, Bool.and_eq_true, Bool.or_eq_true,
    beq_iff_eq, bne_iff_ne]

lemma nr_days_month_eq_spec (y m : Int) (h1 : 1 ≤ m) (h2 : m ≤ 12) :
    nr_days_month y m = spec_days_in_month y m := by
  interval_cases m <;>
    simp [nr_days_month, spec_days_in_month, leap_year_iff]

lemma is_valid_date_iff_spec (y m d : Int) :
    is_valid_date y m d = true ↔ spec_valid_gregorian_date y m d := by
  unfold is_valid_date MINYEAR MAXYEAR
  split_ifs with h1 h2 h3
  · simp only [false_iff]
    intro hv
    exact absurd hv.1 (by omega)
  · simp only [false_iff]
    intro hv
    exact absurd hv.2.1 (by omega)
  · simp only [false_iff]
    intro hv
    rw [spec_valid_gregorian_date] at hv
    have := hv.2.2
    rw [← nr_days_month_eq_spec y m (by omega) (by omega)] at this
    omega
  · simp only [true_iff]
    refine ⟨by omega, by omega, ?_⟩
    rw [← nr_days_month_eq_spec y m (by omega) (by omega)]
    omega

/-- Spec-side signed total duration of a parsed TIME text, in microseconds:
the sign applied uniformly to hours, minutes, seconds and microseconds. -/
def spec_time_total_usecs (p : Bool × Int × Int × Int × Int) : Int :=
  (if p.1 then -1 else 1) *
    (p.2.1 * 3600000000 + p.2.2.1 * 60000000 + p.2.2.2.1 * 1000000 + p.2.2.2.2)

/-- Total microseconds represented by a normalized
`(days, seconds, microseconds)` timedelta triple. -/
def delta_total_usecs (t : Int × Int × Int) : Int :=
  t.1 * 86400000000 + t.2.1 * 1000000 + t.2.2

lemma mytopy_time_core_spec (neg : Bool) (h m s u : Int) :
    delta_total_usecs (mytopy_time_core neg h m s u)
        = (if neg then -1 else 1) * (h * 3600000000 + m * 60000000 + s * 1000000 + u)
      ∧ 0 ≤ (mytopy_time_core neg h m s u).2.1
      ∧ (mytopy_time_core neg h m s u).2.1 < 86400
      ∧ 0 ≤ (mytopy_time_core neg h m s u).2.2
      ∧ (mytopy_time_core neg h m s u).2.2 < 1000000 := by
  cases neg <;>
  · simp only [mytopy_time_core, pyDelta_normalize, delta_total_usecs, if_true, if_false,
      Bool.false_eq_true, Bool.true_eq_false]
    have ht := Int.tdiv_add_tmod (h * -1) 24
    have ht2 := Int.tdiv_add_tmod h 24
    generalize Int.tdiv (h * -1) 24 = q1 at *
    generalize Int.tmod (h * -1) 24 = r1 at *
    generalize Int.tdiv h 24 = q2 at *
    generalize Int.tmod h 24 = r2 at *
    omega

end SpecSide

end MyConnPy

namespace MyConnPy

/-- C1: `mytopy_date` returns the parsed date when the text matches the
`"%d-%d-%d"` grammar and `(year, month, day)` is a valid Gregorian date
(year in `[1,9999]`, month in `[1,12]`, day in `[1, days-in-month]` with
February resolved by the leap-year test); it returns the `None` sentinel
when the text matches the grammar but the date is calendrically invalid;
and it raises `ValueError` exactly when the text does not match the
grammar. -/
theorem C1_mytopy_date_spec (data : List Char) :
    (∀ y m d, sscanf_d_d_d data = some (y, m, d) →
       mytopy_date data =
         (if spec_valid_gregorian_date y m d then DateResult.value y m d
          else DateResult.pynone))
    ∧ (mytopy_date data = DateResult.valueError ↔ sscanf_d_d_d data = none) := by
  constructor
  · intro y m d hp
    simp only [mytopy_date, hp]
    by_cases hv : spec_valid_gregorian_date y m d
    · rw [if_pos hv, if_pos ((is_valid_date_iff_spec y m d).mpr hv)]
    · rw [if_neg hv, if_neg (fun hb => hv ((is_valid_date_iff_spec y m d).mp hb))]
  · rw [mytopy_date]
    cases hp : sscanf_d_d_d data with
    | none => simp
    | some v =>
      obtain ⟨y, m, d⟩ := v
      constructor
      · intro hctr
        by_cases hb : is_valid_date y m d <;> simp [hb] at hctr
      · intro h; exact absurd h (by simp)

/-- Witness for C1 at concrete inputs: `"2024-02-29"` (valid leap date) and
`"2023-02-29"` (syntactically fine, calendrically invalid). -/
theorem C1_mytopy_date_spec_witness :
    mytopy_date "2024-02-29".toList = DateResult.value 2024 2 29
    ∧ mytopy_date "2023-02-29".toList = DateResult.pynone := by
  constructor
  · have h := (C1_mytopy_date_spec "2024-02-29".toList).1 2024 2 29 (by decide)
    rw [h, if_pos (by decide)]
  · have h := (C1_mytopy_date_spec "2023-02-29".toList).1 2023 2 29 (by decide)
    rw [h, if_neg (by decide)]

/-- C2 (code bug): the datetime codec's fractional loop is initialised with
`field_length = 6` (the analogous loop in `mytopy_time` uses 5, and the
comment next to it reads "max fractional - 1"), so it keeps SEVEN
significant fractional digits instead of truncating to six.  On
`"2024-01-01 00:00:00.1234567"` it parses `usecs = 1234567`, which
`is_valid_time` then rejects, so the codec returns the `None` sentinel
instead of the claimed datetime with microseconds `123456`. -/
theorem C2_datetime_frac_truncation_bug :
    dt_parse "2024-01-01 00:00:00.1234567".toList = (2024, 1, 1, 0, 0, 0, 1234567)
    ∧ mytopy_datetime "2024-01-01 00:00:00.1234567".toList = DatetimeResult.pynone
    ∧ DatetimeResult.pynone ≠ DatetimeResult.value 2024 1 1 0 0 0 123456 :=
  ⟨by decide, by decide, by decide⟩

/-- C4: `mytopy_time` treats its input as a signed duration: the leading
`'-'` is applied uniformly to hours, minutes, seconds and microseconds
(the total microsecond value of the result equals the signed combination
of the parsed components, so hours beyond 24 and negative durations are
represented exactly), and the result is normalized to
`(days, seconds-within-day, microseconds)` with `0 ≤ seconds < 86400` and
`0 ≤ microseconds < 1000000`. -/
theorem C4_mytopy_time_signed_duration (data : List Char) :
    delta_total_usecs (mytopy_time data) = spec_time_total_usecs (time_parse data)
    ∧ 0 ≤ (mytopy_time data).2.1 ∧ (mytopy_time data).2.1 < 86400
    ∧ 0 ≤ (mytopy_time data).2.2 ∧ (mytopy_time data).2.2 < 1000000 := by
  have hcore := mytopy_time_core_spec (time_parse data).1 (time_parse data).2.1
    (time_parse data).2.2.1 (time_parse data).2.2.2.1 (time_parse data).2.2.2.2
  simpa [mytopy_time, spec_time_total_usecs] using hcore

section StringCodec

/-- Flag bit `#define BINARY_FLAG 128` from `mysql.h`. -/
def BINARY_FLAG : Nat := 128

/-- Result of `mytopy_string` (5-argument version in
`mysql_capi_conversion.c`): a decoded `str`, raw `bytes`, or `NULL`
(decode error raised by `PyUnicode_Decode`, or the guard for a null
`data`/`charset` pointer). -/
inductive StrResult where
  | text (s : String)
  | bytes (b : List Char)
  | nullError
  deriving DecidableEq, Repr

/-- Function `mytopy_string` from `mysql_capi_conversion.c`.  `dec` stands for
`PyUnicode_Decode` (external CPython API): `dec charset data = none`
models a decode error.  The condition mirrors
`!(flags & BINARY_FLAG) && use_unicode && strcmp(charset, "binary") != 0`,
and `none` arguments model the null-pointer guard (which prints debug
output and returns `NULL`). -/
def mytopy_string (dec : String → List Char → Option String)
    (data : Option (List Char)) (flags : Nat) (charset : Option String)
    (use_unicode : Bool) : StrResult :=
  match data, charset with
  | some d, some cs =>
    if flags.land BINARY_FLAG == 0 && use_unicode && !(cs == "binary") then
      match dec cs d with
      | some s => .text s
      | none => .nullError
    else .bytes d
  | _, _ => .nullError

/-- Function `python_characterset_name` from `mysql_capi.c`: a null name maps to
`"latin1"`, and `utf8mb4` / `utf8mb3` map to `"utf8"` (the C code combines
the two `strcmp` tests with `^`, modelled by `Bool.xor`; the two can never
hold simultaneously, so this behaves as a disjunction). -/
def python_characterset_name (mysql_name : Option String) : String :=
  match mysql_name with
  | none => "latin1"
  | some n => if ((n == "utf8mb4") ^^ (n == "utf8mb3")) then "utf8" else n

end StringCodec

/-- C3: the string codec returns the raw bytes unchanged whenever the
binary flag is set, unicode mode is disabled, or the charset name is
`"binary"`; otherwise it decodes through the charset, raising a decode
error exactly when the decoder rejects the bytes; and charset-name
resolution maps `utf8mb4` and `utf8mb3` to `"utf8"` and an absent name to
`"latin1"`. -/
theorem C3_mytopy_string_routing (dec : String → List Char → Option String)
    (d : List Char) (flags : Nat) (cs : String) (uu : Bool) :
    (Nat.land flags BINARY_FLAG ≠ 0 ∨ uu = false ∨ cs = "binary" →
       mytopy_string dec (some d) flags (some cs) uu = .bytes d)
    ∧ (Nat.land flags BINARY_FLAG = 0 → uu = true → cs ≠ "binary" →
       mytopy_string dec (some d) flags (some cs) uu =
         (match dec cs d with
          | some s => StrResult.text s
          | none => StrResult.nullError))
    ∧ python_characterset_name (some "utf8mb4") = "utf8"
    ∧ python_characterset_name (some "utf8mb3") = "utf8"
    ∧ python_characterset_name none = "latin1" := by
  refine ⟨?_, ?_, by decide, by decide, rfl⟩
  · intro h
    have hcond : (Nat.land flags BINARY_FLAG == 0 && uu && !(cs == "binary")) = false := by
      rcases h with h | h | h
      · have hb : (Nat.land flags BINARY_FLAG == 0) = false := beq_eq_false_iff_ne.mpr h
        simp [hb]
      · simp [h]
      · simp [h]
    simp [mytopy_string, hcond]
  · intro h1 h2 h3
    have hcond : (Nat.land flags BINARY_FLAG == 0 && uu && !(cs == "binary")) = true := by
      simp [h1, h2, h3]
    simp only [mytopy_string, hcond, if_true]

/-- Witness for C3: the binary flag forces raw bytes even with a failing
decoder; without it the decoder's output is returned. -/
theorem C3_mytopy_string_routing_witness :
    mytopy_string (fun _ _ => none) (some ['a']) 128 (some "utf8") true
      = StrResult.bytes ['a']
    ∧ mytopy_string (fun _ l => some (String.mk l)) (some ['a']) 0 (some "utf8") true
      = StrResult.text "a" := by
  constructor
  · exact (C3_mytopy_string_routing (fun _ _ => none) ['a'] 128 "utf8" true).1
      (Or.inl (by decide))
  · exact (C3_mytopy_string_routing (fun _ l => some (String.mk l)) ['a'] 0 "utf8" true).2.1
      rfl rfl (by decide)

section ErrorRaisers

/-- The error state of a native session or statement handle at raise time:
`mysql_errno`/`mysql_error`/`mysql_sqlstate` (or their `mysql_stmt_`
counterparts). -/
structure HandleErr where
  errno : Nat
  msg : String
  sqlstate : String

/-- The attributes attached to the exception object raised by the error
raisers in `exceptions.c`. -/
structure RaisedExc where
  errno : Nat
  sqlstate : String
  msg : String
  deriving DecidableEq, Repr

/-- Function `raise_with_session` from `exceptions.c`: when the handle reports
error code 0, default to errno 2006 / `"HY000"` /
`"MySQL server has gone away"`; otherwise copy the handle's error code,
message and SQLSTATE. -/
def raise_with_session (h : HandleErr) : RaisedExc :=
  if h.errno = 0 then ⟨2006, "HY000", "MySQL server has gone away"⟩
  else ⟨h.errno, h.sqlstate, h.msg⟩

/-- Function `raise_with_stmt` from `exceptions.c`: textually the same computation
as `raise_with_session`, reading the statement handle's error triple. -/
def raise_with_stmt (h : HandleErr) : RaisedExc :=
  if h.errno = 0 then ⟨2006, "HY000", "MySQL server has gone away"⟩
  else ⟨h.errno, h.sqlstate, h.msg⟩

end ErrorRaisers

/-- C10: both error raisers attach non-empty errno, sqlstate and msg
attributes (given that the native handle reports a non-empty message and
SQLSTATE whenever its error code is non-zero, which is the libmysqlclient
contract); a handle error code of 0 yields exactly
`(2006, "HY000", "MySQL server has gone away")`, and a non-zero code is
copied verbatim together with the handle's message and SQLSTATE. -/
theorem C10_error_raisers (h : HandleErr)
    (hc : h.errno ≠ 0 → h.msg ≠ "" ∧ h.sqlstate ≠ "") :
    ((raise_with_session h).errno ≠ 0 ∧ (raise_with_session h).msg ≠ ""
       ∧ (raise_with_session h).sqlstate ≠ "")
    ∧ (h.errno = 0 →
        raise_with_session h = ⟨2006, "HY000", "MySQL server has gone away"⟩)
    ∧ (h.errno ≠ 0 → raise_with_session h = ⟨h.errno, h.sqlstate, h.msg⟩)
    ∧ raise_with_stmt h = raise_with_session h := by
  refine ⟨?_, ?_, ?_, rfl⟩
  · by_cases h0 : h.errno = 0
    · simp [raise_with_session, h0]
    · obtain ⟨hm, hs⟩ := hc h0
      simp [raise_with_session, h0, hm, hs]
  · intro h0; simp [raise_with_session, h0]
  · intro h0; simp [raise_with_session, h0]

/-- Witness for C10 at a concrete dead-connection handle state (error code
0) and a concrete server error. -/
theorem C10_error_raisers_witness :
    raise_with_session ⟨0, "", ""⟩ = ⟨2006, "HY000", "MySQL server has gone away"⟩
    ∧ raise_with_session ⟨1146, "Table 'x.y' does not exist", "42S02"⟩
        = ⟨1146, "42S02", "Table 'x.y' does not exist"⟩ := by
  constructor
  · exact (C10_error_raisers ⟨0, "", ""⟩ (by simp)).2.1 rfl
  · exact (C10_error_raisers ⟨1146, "Table 'x.y' does not exist", "42S02"⟩
      (by simp)).2.2.1 (by simp)

section FetchGuards

/-- Outcome of the entry checks of a fetch-path function in
`mysql_capi.c`: an exception is raised, `Py_None` is returned, or
execution proceeds to the body. -/
inductive EntryOutcome where
  | raisesError (msg : String)
  | returnsNone
  | proceeds
  deriving DecidableEq, Repr

/-- Entry checks of `MySQL_fetch_fields`: `CHECK_SESSION(self)` (raises
`"MySQL session not available."` for a null pointer) followed by
`if (!self->result) raise_with_string("No result")`. -/
def MySQL_fetch_fields_entry (session_null has_result : Bool) : EntryOutcome :=
  if session_null then .raisesError "MySQL session not available."
  else if has_result = false then .raisesError "No result"
  else .proceeds

/-- Entry checks of `MySQL_fetch_row`: `CHECK_SESSION(self)` followed by
`if (!self->result) Py_RETURN_NONE`. -/
def MySQL_fetch_row_entry (session_null has_result : Bool) : EntryOutcome :=
  if session_null then .raisesError "MySQL session not available."
  else if has_result = false then .returnsNone
  else .proceeds

/-- Whether an entry outcome surfaces an error. -/
def EntryOutcome.isError : EntryOutcome → Bool
  | .raisesError _ => true
  | _ => false

end FetchGuards

/-- C7 counterexample: calling the per-row fetch (`MySQL_fetch_row`) on a
live session whose result handle is absent does NOT surface an error — it
silently returns `Py_None` — contradicting the claim that every fetch
operation without an active result surfaces a usage error. -/
theorem C7_fetch_row_no_result_counterexample :
    MySQL_fetch_row_entry false false = EntryOutcome.returnsNone
    ∧ EntryOutcome.isError (MySQL_fetch_row_entry false false) = false := by
  exact ⟨rfl, rfl⟩

/-- C7 (amended): only the column-descriptor accessor `MySQL_fetch_fields`
raises an error (`"No result"`) when the result handle is absent; the
per-row fetch `MySQL_fetch_row` with a live session and absent result
returns the `None` sentinel instead (an error is raised there only for a
null session pointer). -/
theorem C7_no_result_guards :
    (∀ session_null : Bool,
       EntryOutcome.isError (MySQL_fetch_fields_entry session_null false) = true)
    ∧ MySQL_fetch_fields_entry false false = EntryOutcome.raisesError "No result"
    ∧ MySQL_fetch_row_entry false false = EntryOutcome.returnsNone
    ∧ MySQL_fetch_row_entry true false
        = EntryOutcome.raisesError "MySQL session not available." := by
  refine ⟨?_, rfl, rfl, rfl⟩
  intro sn
  cases sn <;> rfl

section PrepStmtTwoPhase

/-- Wire type codes from `mysql.h` (`enum enum_field_types`). -/
def MYSQL_TYPE_DECIMAL : Nat := 0
def MYSQL_TYPE_TINY : Nat := 1
def MYSQL_TYPE_SHORT : Nat := 2
def MYSQL_TYPE_LONG : Nat := 3
def MYSQL_TYPE_FLOAT : Nat := 4
def MYSQL_TYPE_DOUBLE : Nat := 5
def MYSQL_TYPE_NULL : Nat := 6
def MYSQL_TYPE_TIMESTAMP : Nat := 7
def MYSQL_TYPE_LONGLONG : Nat := 8
def MYSQL_TYPE_INT24 : Nat := 9
def MYSQL_TYPE_DATE : Nat := 10
def MYSQL_TYPE_TIME : Nat := 11
def MYSQL_TYPE_DATETIME : Nat := 12
def MYSQL_TYPE_YEAR : Nat := 13
def MYSQL_TYPE_VARCHAR : Nat := 15
def MYSQL_TYPE_BIT : Nat := 16
def MYSQL_TYPE_NEWDECIMAL : Nat := 246
def MYSQL_TYPE_ENUM : Nat := 247
def MYSQL_TYPE_SET : Nat := 248
def MYSQL_TYPE_BLOB : Nat := 252
def MYSQL_TYPE_VAR_STRING : Nat := 253
def MYSQL_TYPE_STRING : Nat := 254
def MYSQL_TYPE_GEOMETRY : Nat := 255

/-- Column flag bits from `mysql.h`. -/
def BLOB_FLAG : Nat := 16
def ZEROFILL_FLAG : Nat := 64
def SET_FLAG : Nat := 2048

/-- One entry of the `MYSQL_BIND` output array as set up by
`MySQLPrepStmt_handle_result` (phase 1): the buffer type tag, whether the
buffer pointer is a direct small inline buffer (`true`) or `NULL`
(`false`), and the buffer length in bytes. -/
structure BindSpec where
  buffer_type : Nat
  inline_buffer : Bool
  buffer_length : Nat
  deriving DecidableEq, Repr

/-- The phase-1 binding switch of `MySQLPrepStmt_handle_result`: integer
types are promoted to `MYSQL_TYPE_LONGLONG` with an 8-byte
(`sizeof(long long)`) inline buffer, `FLOAT` and `DOUBLE` get 4- and
8-byte inline buffers, and everything else (including `NULL` and `BIT`) is bound with a
`NULL` buffer pointer and zero length (the bind array comes from `calloc`,
so fields the switch does not set are zero). -/
def prepstmt_bind_output (ftype : Nat) : BindSpec :=
  if ftype = MYSQL_TYPE_NULL then ⟨MYSQL_TYPE_NULL, false, 0⟩
  else if ftype = MYSQL_TYPE_BIT then ⟨MYSQL_TYPE_BIT, false, 0⟩
  else if ftype = MYSQL_TYPE_TINY ∨ ftype = MYSQL_TYPE_SHORT ∨
          ftype = MYSQL_TYPE_INT24 ∨ ftype = MYSQL_TYPE_YEAR ∨
          ftype = MYSQL_TYPE_LONG ∨ ftype = MYSQL_TYPE_LONGLONG then
    ⟨MYSQL_TYPE_LONGLONG, true, 8⟩
  else if ftype = MYSQL_TYPE_FLOAT then ⟨MYSQL_TYPE_FLOAT, true, 4⟩
  else if ftype = MYSQL_TYPE_DOUBLE then ⟨MYSQL_TYPE_DOUBLE, true, 8⟩
  else ⟨MYSQL_TYPE_STRING, false, 0⟩

/-- What `MySQLPrepStmt_fetch_row` does for one column of a fetched row
(phase 2): a `NULL` cell yields `None` directly; the small fixed-size
numeric types are read from their inline buffers; every other column has
an exactly-sized buffer of the server-recorded length `col_length`
allocated and re-bound, and a second `mysql_stmt_fetch_column` call
issued for it. -/
inductive PrepFetchAction where
  | nullValue
  | inlineRead
  | refetch (buffer_length : Nat)
  deriving DecidableEq, Repr

/-- The per-column phase-2 dispatch of `MySQLPrepStmt_fetch_row` (the
`is_null` check followed by the type switch; all non-inline switch arms
allocate a `col_length`-sized buffer, re-bind it and call
`mysql_stmt_fetch_column`). -/
def prepstmt_fetch_col_action (ftype : Nat) (is_null : Bool) (col_length : Nat) :
    PrepFetchAction :=
  if is_null then .nullValue
  else if ftype = MYSQL_TYPE_TINY ∨ ftype = MYSQL_TYPE_SHORT ∨
          ftype = MYSQL_TYPE_INT24 ∨ ftype = MYSQL_TYPE_LONG ∨
          ftype = MYSQL_TYPE_LONGLONG ∨ ftype = MYSQL_TYPE_YEAR ∨
          ftype = MYSQL_TYPE_FLOAT ∨ ftype = MYSQL_TYPE_DOUBLE then .inlineRead
  else .refetch col_length

end PrepStmtTwoPhase

/-- C5: phase-1 binding is uniform — every integer wire type (TINY, SHORT,
INT24, YEAR, LONG, LONGLONG) is bound as the widest signed integer type
LONGLONG with an 8-byte inline buffer, FLOAT and DOUBLE get inline
buffers, and every other wire type is initially bound with a null buffer
pointer and zero length; and per fetched row, every such unbound column
holding a non-NULL value has an exactly-sized buffer of the server-recorded
length re-bound and a second per-column fetch issued. -/
theorem C5_prepstmt_two_phase (t len : Nat) :
    ((t = MYSQL_TYPE_TINY ∨ t = MYSQL_TYPE_SHORT ∨ t = MYSQL_TYPE_INT24 ∨
      t = MYSQL_TYPE_YEAR ∨ t = MYSQL_TYPE_LONG ∨ t = MYSQL_TYPE_LONGLONG) →
       prepstmt_bind_output t = ⟨MYSQL_TYPE_LONGLONG, true, 8⟩)
    ∧ prepstmt_bind_output MYSQL_TYPE_FLOAT = ⟨MYSQL_TYPE_FLOAT, true, 4⟩
    ∧ prepstmt_bind_output MYSQL_TYPE_DOUBLE = ⟨MYSQL_TYPE_DOUBLE, true, 8⟩
    ∧ (¬(t = MYSQL_TYPE_TINY ∨ t = MYSQL_TYPE_SHORT ∨ t = MYSQL_TYPE_INT24 ∨
         t = MYSQL_TYPE_YEAR ∨ t = MYSQL_TYPE_LONG ∨ t = MYSQL_TYPE_LONGLONG ∨
         t = MYSQL_TYPE_FLOAT ∨ t = MYSQL_TYPE_DOUBLE) →
       (prepstmt_bind_output t).inline_buffer = false
       ∧ (prepstmt_bind_output t).buffer_length = 0
       ∧ prepstmt_fetch_col_action t false len = .refetch len) := by
  refine ⟨?_, by decide, by decide, ?_⟩
  · intro h
    rw [prepstmt_bind_output]
    rw [if_neg (by rcases h with h | h | h | h | h | h <;> subst h <;> decide)]
    rw [if_neg (by rcases h with h | h | h | h | h | h <;> subst h <;> decide)]
    rw [if_pos (by tauto)]
  · intro h
    push_neg at h
    obtain ⟨h1, h2, h3, h4, h5, h6, h7, h8⟩ := h
    have hints : ¬(t = MYSQL_TYPE_TINY ∨ t = MYSQL_TYPE_SHORT ∨
        t = MYSQL_TYPE_INT24 ∨ t = MYSQL_TYPE_YEAR ∨
        t = MYSQL_TYPE_LONG ∨ t = MYSQL_TYPE_LONGLONG) := by tauto
    constructor
    · rw [prepstmt_bind_output]
      split_ifs <;> simp_all
    constructor
    · rw [prepstmt_bind_output]
      split_ifs <;> simp_all
    · rw [prepstmt_fetch_col_action, if_neg (by simp), if_neg (by tauto)]

/-- Witness for C5 at concrete types: an INT24 column is promoted to the
inline LONGLONG buffer, and a BLOB column is left unbound and refetched
with the server-recorded length (here 5 bytes). -/
theorem C5_prepstmt_two_phase_witness :
    prepstmt_bind_output MYSQL_TYPE_INT24 = ⟨MYSQL_TYPE_LONGLONG, true, 8⟩
    ∧ (prepstmt_bind_output MYSQL_TYPE_BLOB).inline_buffer = false
    ∧ prepstmt_fetch_col_action MYSQL_TYPE_BLOB false 5 = .refetch 5 := by
  refine ⟨(C5_prepstmt_two_phase MYSQL_TYPE_INT24 0).1 (by tauto), ?_, ?_⟩
  · exact ((C5_prepstmt_two_phase MYSQL_TYPE_BLOB 5).2.2.2 (by decide)).1
  · exact ((C5_prepstmt_two_phase MYSQL_TYPE_BLOB 5).2.2.2 (by decide)).2.2

section TextRowFetch

/-- Function `mytopy_bit` from `mysql_capi_conversion.c`: big-endian byte
accumulation `value = (value << 8) | *d++`.  Bytes are modelled as the
code points of the `Char` list (only byte values below 256 occur). -/
def mytopy_bit (data : List Char) : Int :=
  data.foldl (fun acc c => acc * 256 + (c.toNat : Int)) 0

/-- Python `str.split(",")` (the semantics of
`PyUnicode_Split(value, ",", -1)`): split at every comma, keeping empty
pieces; the empty string yields `[[]]`. -/
def splitCommaList : List Char → List (List Char)
  | [] => [[]]
  | c :: rest =>
    if c = ',' then [] :: splitCommaList rest
    else
      match splitCommaList rest with
      | t :: ts => (c :: t) :: ts
      | [] => [[c]]

/-- A converted Python cell value, covering the constructors produced by
the fetch paths in `mysql_capi.c`.  `pyfloat` keeps the raw text
(`PyOS_string_to_double` is an external CPython routine), and `pyset`
models a Python `set` of strings as a `Finset`. -/
inductive PyVal where
  | pynone
  | pyint (n : Int)
  | pydate (y m d : Int)
  | pydatetime (y mo d h mi s us : Int)
  | pydelta (d s us : Int)
  | pystr (s : String)
  | pybytes (b : List Char)
  | pybytearray (b : List Char)
  | pyset (xs : Finset String)
  | pydecimal (s : String)
  | pyfloat (b : List Char)
  | pybit (n : Int)
  deriving DecidableEq

/-- One result column of `MySQL_fetch_row`: the wire type, charset id and
flags read back from the cached field tuple (`field_info[8]`,
`field_info[6]`, `field_info[9]`), and the raw cell (`row[i]`, `none` for
a SQL NULL). -/
structure TextCell where
  ftype : Nat
  charsetnr : Nat
  flags : Nat
  raw : Option (List Char)
  deriving DecidableEq

/-- The CPython / external services the row-conversion loop calls; the
theorems below hold for every implementation of them.
`pyLongFromString raw base` models `PyLong_FromString(row[i], NULL, base)`
(`none` = raised error), `pyFloatParsesFully` models
`PyOS_string_to_double` consuming the whole string, `pyDecimalOk` models
the `decimal.Decimal` constructor succeeding, and `stringCodec ftype
charsetnr raw` models the string codec call
`mytopy_string(row[i], field_type, field_charsetnr, length, charset,
use_unicode)` whose 6-argument body is not part of this source tree
(`none` = raised decode error). -/
structure CRuntime where
  pyLongFromString : List Char → Nat → Option Int
  pyFloatParsesFully : List Char → Bool
  pyDecimalOk : List Char → Bool
  stringCodec : Nat → Nat → List Char → Option PyVal

/-- The SET-flag post-processing in `MySQL_fetch_row`: an empty raw cell
(`!strlen(row[i])`) yields `PySet_New(NULL)`, the empty set; otherwise the
decoded value is split on `","` via `PyUnicode_Split` and the pieces
collected into a set.  When the decoded value is not a `str` (binary
column), `PyUnicode_Split` fails and `PySet_New(NULL)` still produces an
empty set (with the error left pending). -/
def text_set_value (raw : List Char) (v : PyVal) : Finset String :=
  if raw = [] then ∅
  else
    match v with
    | .pystr s => ((splitCommaList s.toList).map (fun t => String.mk t)).toFinset
    | _ => ∅

/-- Outcome of converting one cell inside the `MySQL_fetch_row` loop:
a value stored into the row tuple, a `NULL` stored into the tuple without
a check (the conversion failed but the loop continues, the error left
pending), or `goto error` (the row tuple is decref'd and the function
returns `NULL`). -/
inductive CellOut where
  | ok (v : PyVal)
  | nullStored
  | abort
  deriving DecidableEq

/-- The per-cell dispatch of `MySQL_fetch_row` (`mysql_capi.c`), branch
for branch in source order.  Only the string-family branch checks its
conversion result (`if (!value) goto error`); all other branches store
the result unchecked, so a failed conversion there stores `NULL` and the
loop continues. -/
def convert_text_cell (rt : CRuntime) (c : TextCell) : CellOut :=
  match c.raw with
  | none => .ok .pynone
  | some data =>
    if c.ftype = MYSQL_TYPE_TINY ∨ c.ftype = MYSQL_TYPE_SHORT ∨
       c.ftype = MYSQL_TYPE_LONG ∨ c.ftype = MYSQL_TYPE_LONGLONG ∨
       c.ftype = MYSQL_TYPE_INT24 ∨ c.ftype = MYSQL_TYPE_YEAR then
      match rt.pyLongFromString data
          (if Nat.land c.flags ZEROFILL_FLAG ≠ 0 then 10 else 0) with
      | some n => .ok (.pyint n)
      | none => .nullStored
    else if c.ftype = MYSQL_TYPE_DATETIME ∨ c.ftype = MYSQL_TYPE_TIMESTAMP then
      match mytopy_datetime data with
      | .value y mo d h mi s us => .ok (.pydatetime y mo d h mi s us)
      | .pynone => .ok .pynone
    else if c.ftype = MYSQL_TYPE_DATE then
      match mytopy_date data with
      | .value y m d => .ok (.pydate y m d)
      | .pynone => .ok .pynone
      | .valueError => .nullStored
    else if c.ftype = MYSQL_TYPE_TIME then
      .ok (.pydelta (mytopy_time data).1 (mytopy_time data).2.1 (mytopy_time data).2.2)
    else if c.ftype = MYSQL_TYPE_VARCHAR ∨ c.ftype = MYSQL_TYPE_STRING ∨
            c.ftype = MYSQL_TYPE_ENUM ∨ c.ftype = MYSQL_TYPE_VAR_STRING then
      match rt.stringCodec c.ftype c.charsetnr data with
      | none => .abort
      | some v =>
        if Nat.land c.flags SET_FLAG ≠ 0 then .ok (.pyset (text_set_value data v))
        else .ok v
    else if c.ftype = MYSQL_TYPE_NEWDECIMAL ∨ c.ftype = MYSQL_TYPE_DECIMAL then
      if rt.pyDecimalOk data then .ok (.pydecimal (String.mk data)) else .nullStored
    else if c.ftype = MYSQL_TYPE_FLOAT ∨ c.ftype = MYSQL_TYPE_DOUBLE then
      if rt.pyFloatParsesFully data then .ok (.pyfloat data) else .ok .pynone
    else if c.ftype = MYSQL_TYPE_BIT then
      .ok (.pybit (mytopy_bit data))
    else if c.ftype = MYSQL_TYPE_BLOB then
      if Nat.land c.flags BLOB_FLAG ≠ 0 ∧ Nat.land c.flags BINARY_FLAG ≠ 0 then
        .ok (.pybytes data)
      else
        match rt.stringCodec c.ftype c.charsetnr data with
        | some v => .ok v
        | none => .nullStored
    else if c.ftype = MYSQL_TYPE_GEOMETRY then
      .ok (.pybytearray data)
    else
      match rt.stringCodec c.ftype c.charsetnr data with
      | some v => .ok v
      | none => .nullStored

/-- The conversion loop of `MySQL_fetch_row` over the row's cells:
`none` models the `goto error` path (`Py_DECREF(result_row); return NULL`,
the row discarded); otherwise the row tuple is returned, one slot per
cell (`none` in a slot is a `NULL` stored by an unchecked failing
conversion). -/
def fetch_text_row_cells (rt : CRuntime) : List TextCell → Option (List (Option PyVal))
  | [] => some []
  | c :: rest =>
    match convert_text_cell rt c with
    | .abort => none
    | .ok v =>
      match fetch_text_row_cells rt rest with
      | some slots => some (some v :: slots)
      | none => none
    | .nullStored =>
      match fetch_text_row_cells rt rest with
      | some slots => some (none :: slots)
      | none => none

end TextRowFetch

/-- C6 counterexample: a row whose single DATE cell holds unparsable text.
`mytopy_date` fails (raises `ValueError`), yet `MySQL_fetch_row` still
returns the row object — with a `NULL` stored in the failed slot — instead
of discarding it, contradicting the claim that any per-cell conversion
failure aborts the entire row. -/
theorem C6_partial_row_counterexample :
    mytopy_date ['x'] = DateResult.valueError
    ∧ fetch_text_row_cells
        ⟨fun _ _ => none, fun _ => false, fun _ => true, fun _ _ d => some (.pybytes d)⟩
        [⟨MYSQL_TYPE_DATE, 63, 0, some ['x']⟩] = some [none]
    ∧ some [(none : Option PyVal)] ≠ (none : Option (List (Option PyVal))) :=
  ⟨by decide, by decide, by decide⟩

/-- C6 (amended): the row is discarded (no row object returned) exactly
when some cell's conversion takes the `goto error` path, and that path is
taken by the string-family branch when the string codec fails; a failed
DATE conversion instead stores a `NULL` slot, and the row is still
returned. -/
theorem C6_row_abort_semantics (rt : CRuntime) :
    (∀ cells, fetch_text_row_cells rt cells = none ↔
       ∃ c ∈ cells, convert_text_cell rt c = CellOut.abort)
    ∧ (∀ ftype charsetnr flags data,
        (ftype = MYSQL_TYPE_VARCHAR ∨ ftype = MYSQL_TYPE_STRING ∨
         ftype = MYSQL_TYPE_ENUM ∨ ftype = MYSQL_TYPE_VAR_STRING) →
        rt.stringCodec ftype charsetnr data = none →
        convert_text_cell rt ⟨ftype, charsetnr, flags, some data⟩ = CellOut.abort)
    ∧ (∀ charsetnr flags data, mytopy_date data = DateResult.valueError →
        convert_text_cell rt ⟨MYSQL_TYPE_DATE, charsetnr, flags, some data⟩
          = CellOut.nullStored) := by
  refine ⟨?_, ?_, ?_⟩
  · intro cells
    induction cells with
    | nil => simp [fetch_text_row_cells]
    | cons c rest ih =>
      rw [fetch_text_row_cells]
      cases h : convert_text_cell rt c with
      | abort => simp [h]
      | ok v =>
        cases hr : fetch_text_row_cells rt rest <;>
          simp_all
      | nullStored =>
        cases hr : fetch_text_row_cells rt rest <;>
          simp_all
  · intro ftype charsetnr flags data hf hs
    rcases hf with h | h | h | h <;> subst h <;>
      simp +decide [convert_text_cell, hs]
  · intro charsetnr flags data hd
    simp +decide [convert_text_cell, hd]

/-- Witness for C6: with a string codec that rejects its input, a row with
one VAR_STRING cell is discarded (no row object returned). -/
theorem C6_row_abort_semantics_witness :
    fetch_text_row_cells
      ⟨fun _ _ => some 0, fun _ => true, fun _ => true, fun _ _ _ => none⟩
      [⟨MYSQL_TYPE_VAR_STRING, 8, 0, some ['a']⟩] = none := by
  have h := C6_row_abort_semantics
    ⟨fun _ _ => some 0, fun _ => true, fun _ => true, fun _ _ _ => none⟩
  exact (h.1 _).mpr ⟨_, List.mem_singleton.mpr rfl,
    h.2.1 MYSQL_TYPE_VAR_STRING 8 0 ['a'] (by tauto) rfl⟩

section FetchFields

/-- The native `MYSQL_FIELD` metadata of one result column as read by
`fetch_fields` in `mysql_capi.c`: six text subfields (C strings; the code
tests emptiness via `field[0] == '\0'`, here `= []`) and five numeric
subfields. -/
structure MyFieldMeta where
  catalog : List Char
  db : List Char
  table : List Char
  org_table : List Char
  name : List Char
  org_name : List Char
  charsetnr : Nat
  max_length : Nat
  ftype : Nat
  flags : Nat
  decimals : Nat

/-- One 11-slot descriptor tuple built by `fetch_fields` for one column.
`strdec t cn raw` stands for the string-codec call
`mytopy_string(raw, myfs[i].type, 45, raw_length, charset, use_unicode)`
(the constant 45 is hard-coded at these call sites; the 6-argument body of
`mytopy_string` is not part of this source tree, so the codec is a
parameter); `none` models a decode error, which makes `fetch_fields`
return `NULL`.  Only `table`, `org_table`, `name` and `org_name` are
short-circuited to `""` when empty — `catalog` and `db` always go through
the codec.  The numeric subfields are copied verbatim via
`PyLong_FromLong`. -/
def fetch_field_tuple (strdec : Nat → Nat → List Char → Option PyVal)
    (f : MyFieldMeta) : Option (List PyVal) :=
  match strdec f.ftype 45 f.catalog with
  | none => none
  | some c0 =>
  match strdec f.ftype 45 f.db with
  | none => none
  | some c1 =>
  match (if f.table = [] then some (.pystr "") else strdec f.ftype 45 f.table) with
  | none => none
  | some c2 =>
  match (if f.org_table = [] then some (.pystr "") else strdec f.ftype 45 f.org_table) with
  | none => none
  | some c3 =>
  match (if f.name = [] then some (.pystr "") else strdec f.ftype 45 f.name) with
  | none => none
  | some c4 =>
  match (if f.org_name = [] then some (.pystr "") else strdec f.ftype 45 f.org_name) with
  | none => none
  | some c5 =>
    some [c0, c1, c2, c3, c4, c5,
      .pyint f.charsetnr, .pyint f.max_length, .pyint f.ftype,
      .pyint f.flags, .pyint f.decimals]

end FetchFields

/-- C8 counterexample: for a field whose `catalog` subfield is the empty
string, `fetch_fields` still invokes the string codec on it — with a
codec that fails, the whole descriptor build fails (`none`) instead of
producing the tuple with an empty decoded catalog that the claim (which
says all six text subfields short-circuit) would require. -/
theorem C8_empty_catalog_counterexample :
    fetch_field_tuple (fun _ _ _ => none) ⟨[], [], [], [], [], [], 0, 0, 0, 0, 0⟩ = none
    ∧ (none : Option (List PyVal)) ≠
        some [.pystr "", .pystr "", .pystr "", .pystr "", .pystr "", .pystr "",
          .pyint 0, .pyint 0, .pyint 0, .pyint 0, .pyint 0] :=
  ⟨rfl, by decide⟩

/-- C8 (amended): each column descriptor is an 11-slot tuple in the order
catalog, schema, table, origin-table, name, origin-name, charset-id,
max-length, wire-type, flags, decimals, with the numeric subfields copied
verbatim; of the six text subfields only `table`, `origin-table`, `name`
and `origin-name` short-circuit to an empty decoded value without
invoking the string codec — `catalog` and `schema` are always passed
through it. -/
theorem C8_fetch_field_tuple_spec (strdec : Nat → Nat → List Char → Option PyVal)
    (f : MyFieldMeta) :
    (∀ v0 v1 v2 v3 v4 v5,
       strdec f.ftype 45 f.catalog = some v0 →
       strdec f.ftype 45 f.db = some v1 →
       f.table ≠ [] → strdec f.ftype 45 f.table = some v2 →
       f.org_table ≠ [] → strdec f.ftype 45 f.org_table = some v3 →
       f.name ≠ [] → strdec f.ftype 45 f.name = some v4 →
       f.org_name ≠ [] → strdec f.ftype 45 f.org_name = some v5 →
       fetch_field_tuple strdec f =
         some [v0, v1, v2, v3, v4, v5,
           .pyint f.charsetnr, .pyint f.max_length, .pyint f.ftype,
           .pyint f.flags, .pyint f.decimals])
    ∧ (∀ slots, fetch_field_tuple strdec f = some slots →
        slots.length = 11
        ∧ slots.getD 6 .pynone = .pyint f.charsetnr
        ∧ slots.getD 7 .pynone = .pyint f.max_length
        ∧ slots.getD 8 .pynone = .pyint f.ftype
        ∧ slots.getD 9 .pynone = .pyint f.flags
        ∧ slots.getD 10 .pynone = .pyint f.decimals
        ∧ (f.table = [] → slots.getD 2 .pynone = .pystr "")
        ∧ (f.org_table = [] → slots.getD 3 .pynone = .pystr "")
        ∧ (f.name = [] → slots.getD 4 .pynone = .pystr "")
        ∧ (f.org_name = [] → slots.getD 5 .pynone = .pystr "")) := by
  constructor
  · intro v0 v1 v2 v3 v4 v5 h0 h1 ht hv2 hot hv3 hn hv4 hon hv5
    rw [fetch_field_tuple, h0, h1, if_neg ht, hv2, if_neg hot, hv3,
      if_neg hn, hv4, if_neg hon, hv5]
  · intro slots hs
    rw [fetch_field_tuple] at hs
    rcases hc0 : strdec f.ftype 45 f.catalog with _ | v0 <;> rw [hc0] at hs
    · exact absurd hs (by simp)
    rcases hc1 : strdec f.ftype 45 f.db with _ | v1 <;> rw [hc1] at hs
    · exact absurd hs (by simp)
    rcases hc2 : (if f.table = [] then some (PyVal.pystr "") else strdec f.ftype 45 f.table)
        with _ | v2 <;> rw [hc2] at hs
    · exact absurd hs (by simp)
    rcases hc3 : (if f.org_table = [] then some (PyVal.pystr "")
        else strdec f.ftype 45 f.org_table) with _ | v3 <;> rw [hc3] at hs
    · exact absurd hs (by simp)
    rcases hc4 : (if f.name = [] then some (PyVal.pystr "") else strdec f.ftype 45 f.name)
        with _ | v4 <;> rw [hc4] at hs
    · exact absurd hs (by simp)
    rcases hc5 : (if f.org_name = [] then some (PyVal.pystr "")
        else strdec f.ftype 45 f.org_name) with _ | v5 <;> rw [hc5] at hs
    · exact absurd hs (by simp)
    have hslots : slots = [v0, v1, v2, v3, v4, v5,
        .pyint f.charsetnr, .pyint f.max_length, .pyint f.ftype,
        .pyint f.flags, .pyint f.decimals] := by
      cases hs; rfl
    subst hslots
    refine ⟨rfl, rfl, rfl, rfl, rfl, rfl, ?_, ?_, ?_, ?_⟩
    · intro he; rw [if_pos he] at hc2; cases hc2; rfl
    · intro he; rw [if_pos he] at hc3; cases hc3; rfl
    · intro he; rw [if_pos he] at hc4; cases hc4; rfl
    · intro he; rw [if_pos he] at hc5; cases hc5; rfl

/-- Witness for C8 at a concrete field (non-empty subfields, echo codec):
the full 11-slot tuple in stable order. -/
theorem C8_fetch_field_tuple_spec_witness :
    fetch_field_tuple (fun _ _ l => some (.pystr (String.mk l)))
        ⟨['d'], ['s'], ['t'], ['o'], ['n'], ['m'], 45, 20, 253, 0, 31⟩
      = some [.pystr "d", .pystr "s", .pystr "t", .pystr "o", .pystr "n", .pystr "m",
          .pyint 45, .pyint 20, .pyint 253, .pyint 0, .pyint 31] := by
  exact (C8_fetch_field_tuple_spec (fun _ _ l => some (.pystr (String.mk l)))
      ⟨['d'], ['s'], ['t'], ['o'], ['n'], ['m'], 45, 20, 253, 0, 31⟩).1
    (.pystr "d") (.pystr "s") (.pystr "t") (.pystr "o") (.pystr "n") (.pystr "m")
    rfl rfl (by decide) rfl (by decide) rfl (by decide) rfl (by decide) rfl

section PrepSet

/-- Tokenization `strtok_r(buf, ",", &rest)` iteration as used by the SET branch of
`MySQLPrepStmt_fetch_row`: successive maximal non-empty runs of
non-comma bytes (leading, trailing and adjacent delimiters are skipped,
so empty tokens are dropped).  Each step consumes at least one byte, so
`fuel = length + 1` computes the exact result; `fuel` exists only to make
the recursion structural. -/
def strtok_comma_fuel : Nat → List Char → List (List Char)
  | 0, _ => []
  | _ + 1, [] => []
  | fuel + 1, c :: rest =>
    if c = ',' then strtok_comma_fuel fuel rest
    else (c :: rest.takeWhile (fun d => d != ',')) ::
         strtok_comma_fuel fuel (rest.dropWhile (fun d => d != ','))

/-- The `strtok_r` token list of a buffer. -/
def strtok_comma (l : List Char) : List (List Char) :=
  strtok_comma_fuel (l.length + 1) l

/-- The SET branch of `MySQLPrepStmt_fetch_row`: the refetched cell bytes
are tokenized with `strtok_r(buf, ",", &rest)` and each token is decoded
(`PyUnicode_FromString`) and added to a fresh Python set. -/
def prep_set_value (raw : List Char) : Finset String :=
  ((strtok_comma raw).map (fun t => String.mk t)).toFinset

/-- Spec-side set value per the claim's words: an empty raw string decodes
to the empty set, a non-empty raw string is split on `','` into the set
of its decoded tokens. -/
def spec_comma_split_set (raw : List Char) : Finset String :=
  if raw = [] then ∅
  else ((splitCommaList raw).map (fun t => String.mk t)).toFinset

lemma strtok_comma_fuel_nil (fuel : Nat) : strtok_comma_fuel fuel [] = [] := by
  cases fuel <;> rfl

lemma dropWhile_head_false {p : Char → Bool} :
    ∀ {l : List Char} {d : Char} {r2 : List Char}, l.dropWhile p = d :: r2 → p d = false := by
  intro l
  induction l with
  | nil => intro d r2 h; simp [List.dropWhile] at h
  | cons a t ih =>
    intro d r2 h
    rw [List.dropWhile_cons] at h
    by_cases hp : p a = true
    · rw [if_pos hp] at h; exact ih h
    · rw [if_neg hp] at h
      cases h
      simpa using hp

lemma length_dropWhile_le_char (p : Char → Bool) (l : List Char) :
    (l.dropWhile p).length ≤ l.length := by
  induction l with
  | nil => simp [List.dropWhile]
  | cons a t ih =>
    rw [List.dropWhile_cons]
    split_ifs
    · simp only [List.length_cons]; omega
    · simp

lemma splitCommaList_structure (l : List Char) :
    splitCommaList l =
      l.takeWhile (fun d => d != ',') ::
        (match l.dropWhile (fun d => d != ',') with
         | [] => []
         | _ :: r2 => splitCommaList r2) := by
  induction l with
  | nil => rfl
  | cons c rest ih =>
    by_cases hc : c = ','
    · subst hc
      simp +decide [splitCommaList, List.takeWhile_cons, List.dropWhile_cons]
    · have hb : (c != ',') = true := by simpa using hc
      rw [List.takeWhile_cons, List.dropWhile_cons, if_pos hb, if_pos hb]
      rw [splitCommaList, if_neg hc, ih]

lemma strtok_comma_fuel_eq :
    ∀ (fuel : Nat) (l : List Char), l.length < fuel →
      strtok_comma_fuel fuel l = (splitCommaList l).filter (fun t => !t.isEmpty) := by
  intro fuel
  induction fuel with
  | zero => intro l h; omega
  | succ fuel ih =>
    intro l h
    match l with
    | [] => simp [strtok_comma_fuel, splitCommaList]
    | c :: rest =>
      by_cases hc : c = ','
      · subst hc
        rw [strtok_comma_fuel, if_pos rfl]
        rw [ih rest (by simp at h; omega)]
        rw [splitCommaList]
        simp
      · rw [strtok_comma_fuel, if_neg hc]
        rw [splitCommaList_structure (c :: rest)]
        have hb : (c != ',') = true := by simpa using hc
        rw [List.takeWhile_cons, List.dropWhile_cons, if_pos hb, if_pos hb]
        rw [List.filter_cons]
        rw [if_pos (by simp)]
        congr 1
        cases hd : rest.dropWhile (fun d => d != ',') with
        | nil => simp [strtok_comma_fuel_nil]
        | cons d r2 =>
          have hdf : (d != ',') = false :=
            @dropWhile_head_false (fun x => x != ',') rest d r2 hd
          have hdc : d = ',' := by simpa using hdf
          subst hdc
          have hlen : (r2.length + 1) < fuel := by
            have h1 := length_dropWhile_le_char (fun d => d != ',') rest
            rw [hd] at h1
            simp at h1 h ⊢
            omega
          rw [ih _ (by simpa using hlen)]
          rw [splitCommaList, if_pos rfl]
          simp

lemma strtok_comma_eq_filter (l : List Char) :
    strtok_comma l = (splitCommaList l).filter (fun t => !t.isEmpty) :=
  strtok_comma_fuel_eq (l.length + 1) l (by omega)

end PrepSet

/-- C9 counterexample: on the raw SET text `","` the prepared-statement
path produces the empty set (its `strtok_r` tokenizer drops empty
tokens), while splitting on `','` as the claim states — and as the text
path does — produces the one-element set containing the empty string.
The two paths therefore do not both implement the claimed split. -/
theorem C9_set_paths_counterexample :
    prep_set_value [','] = (∅ : Finset String)
    ∧ spec_comma_split_set [','] = {""}
    ∧ text_set_value [','] (.pystr ",") = {""}
    ∧ prep_set_value [','] ≠ spec_comma_split_set [','] :=
  ⟨by decide, by decide, by decide, by decide⟩

/-- C9 (amended): a SET-flagged string column decodes to a set in both
fetch paths, and an empty raw string yields the empty set in both; the
text path splits the decoded text on `','` keeping empty tokens (Python
split semantics), while the prepared path tokenizes with `strtok_r`,
dropping empty tokens; consequently both yield `{a,b,c}` for `"a,b,c"`,
and they agree whenever no token is empty. -/
theorem C9_set_decoding :
    (∀ (rt : CRuntime) ftype charsetnr flags data s,
       (ftype = MYSQL_TYPE_VARCHAR ∨ ftype = MYSQL_TYPE_STRING ∨
        ftype = MYSQL_TYPE_ENUM ∨ ftype = MYSQL_TYPE_VAR_STRING) →
       Nat.land flags SET_FLAG ≠ 0 →
       rt.stringCodec ftype charsetnr data = some (.pystr s) →
       convert_text_cell rt ⟨ftype, charsetnr, flags, some data⟩
         = .ok (.pyset (if data = [] then ∅
             else ((splitCommaList s.toList).map (fun t => String.mk t)).toFinset)))
    ∧ (∀ raw, prep_set_value raw =
        (((splitCommaList raw).filter (fun t => !t.isEmpty)).map
          (fun t => String.mk t)).toFinset)
    ∧ prep_set_value [] = (∅ : Finset String)
    ∧ prep_set_value "a,b,c".toList = {"a", "b", "c"}
    ∧ text_set_value "a,b,c".toList (.pystr "a,b,c") = {"a", "b", "c"}
    ∧ (∀ raw, raw ≠ [] → ([] : List Char) ∉ splitCommaList raw →
        prep_set_value raw = spec_comma_split_set raw) := by
  refine ⟨?_, ?_, by decide, by decide, by decide, ?_⟩
  · intro rt ftype charsetnr flags data s hf hset hs
    rcases hf with h | h | h | h <;> subst h <;>
      simp +decide [convert_text_cell, hs, hset, text_set_value]
  · intro raw
    rw [prep_set_value, strtok_comma_eq_filter]
  · intro raw hraw hne
    rw [prep_set_value, strtok_comma_eq_filter, spec_comma_split_set, if_neg hraw]
    have hfix : (splitCommaList raw).filter (fun t => !t.isEmpty) = splitCommaList raw := by
      apply List.filter_eq_self.mpr
      intro t ht
      have htne : t ≠ [] := fun he => hne (he ▸ ht)
      simpa using htne
    rw [hfix]

/-- Witness for C9: a SET-flagged STRING cell `"a,b,c"` decodes to the
3-element set in the text fetch path. -/
theorem C9_set_decoding_witness :
    convert_text_cell
        ⟨fun _ _ => some 0, fun _ => true, fun _ => true,
         fun _ _ d => some (.pystr (String.mk d))⟩
        ⟨MYSQL_TYPE_STRING, 8, 2048, some "a,b,c".toList⟩
      = .ok (.pyset {"a", "b", "c"}) := by
  have h := C9_set_decoding.1
    ⟨fun _ _ => some 0, fun _ => true, fun _ => true,
     fun _ _ d => some (.pystr (String.mk d))⟩
    MYSQL_TYPE_STRING 8 2048 "a,b,c".toList "a,b,c"
    (by tauto) (by decide) rfl
  rw [h]
  decide

end MyConnPy
